import Mathlib

/-!
Shallow embedding of `src/healthcare.py`, a Streamlit chat front-end around a
streaming model service.  The ambient `st.session_state` is modelled as an
explicit `SessionState` record (attributes that were never assigned are
`none`); `st.secrets` and the external service (`genai.Client`,
`client.chats.create`, `chat.send_message_stream`) are modelled as an
environment of oracles.  A Python exception escaping the script is modelled
by `PyResult.exn` / `RunOutcome.crash`.
-/

namespace Healthcare

/-- One record of `st.session_state.messages`: a dict with keys
`role` and `content` (healthcare.py lines 62-63, 107, 136). -/
structure Message where
  role : String
  content : String
deriving DecidableEq, Repr

/-- `MODEL_NAME` constant, healthcare.py line 19. -/
def MODEL_NAME : String := "gemini-2.5-flash"

/-- The state kept in `st.session_state`.  A field is `none` when the key was
never assigned (so reading it as an attribute would raise in Python).
Handles returned by the external service are opaque; we model them as `Nat`. -/
structure SessionState where
  gemini_client : Option Nat
  gemini_chat : Option Nat
  messages : Option (List Message)
deriving DecidableEq, Repr

/-- Outcome of iterating `chat.send_message_stream(prompt)`:
either the finite chunk sequence completes, or the iteration raises with
`detail` after having emitted `chunks` (possibly empty, including a raise in
the `send_message_stream` call itself). -/
inductive StreamResult where
  | success (chunks : List String)
  | failure (chunks : List String) (detail : String)
deriving DecidableEq, Repr

/-- The external world: `st.secrets` membership/value of `GEMINI_API_KEY`,
and the behavior of the three service calls the script makes. -/
structure Env where
  secrets_GEMINI_API_KEY : Option String
  clientCtor : String → Except String Nat
  chatsCreate : Nat → Except String Nat
  sendMessageStream : Nat → String → StreamResult

/-- Result of running a piece of Python: normal value, or an uncaught
exception escaping it. -/
inductive PyResult (α : Type) where
  | ok (a : α)
  | exn (detail : String)
deriving DecidableEq, Repr

/-- `get_gemini_client`, healthcare.py lines 25-42.  Returns the value the
Python function returns (`some` handle or `none`) together with the updated
session state.  Every raise inside the `try` is caught (line 40), so this
function never lets an exception escape. -/
def get_gemini_client (env : Env) (s : SessionState) : Option Nat × SessionState :=
  match s.gemini_client with
  | some c => (some c, s)
  | none =>
    match env.secrets_GEMINI_API_KEY with
    | none => (none, s)
    | some key =>
      match env.clientCtor key with
      | Except.ok c => (some c, { s with gemini_client := some c })
      | Except.error _ => (none, s)

/-- The static welcome message set by `reset_chat`, healthcare.py lines 62-63. -/
def welcomeMessage : Message :=
  { role := "assistant"
    content := "**Welcome!** I'm your informational **Healthcare Companion**. I can provide general health facts and tips, but **I am not a doctor**. Please consult a healthcare professional for any medical concerns." }

/-- `reset_chat`, healthcare.py lines 44-65.  The `Bool` in the result records
whether `st.rerun()` was reached (line 65).  Note line 58
(`client.chats.create(...)`) is not inside any `try`, so a raise there escapes
as `PyResult.exn`. -/
def reset_chat (env : Env) (s : SessionState) : PyResult (SessionState × Bool) :=
  match get_gemini_client env s with
  | (none, s1) => PyResult.ok (s1, false)
  | (some c, s1) =>
    match env.chatsCreate c with
    | Except.error e => PyResult.exn e
    | Except.ok chat =>
      PyResult.ok ({ s1 with gemini_chat := some chat,
                             messages := some [welcomeMessage] }, true)

/-- The fixed-format error string built in the `except` branch,
healthcare.py line 128. -/
def errResponse (e : String) : String :=
  "An error occurred: Chat failed to connect or process the request. Details: " ++ e

/-- The initialization-failure message of the no-session branch,
healthcare.py line 132. -/
def initFailureResponse : String :=
  "The companion could not be initialized. Please refresh the page and check your API key."

/-- The chat-input handler, healthcare.py lines 104-136, for one submitted
prompt.  The second component counts invocations of `send_message_stream`
(network streaming calls).  Line 107 reads `st.session_state.messages`, which
raises if the key was never set; otherwise the handler appends the user
message, then computes `full_response` (streamed concatenation, caught-error
string, or initialization-failure string) and appends it as the assistant
message (line 136). -/
def handle_user_message (env : Env) (prompt : String) (s : SessionState) :
    PyResult SessionState × Nat :=
  match s.messages with
  | none => (PyResult.exn "AttributeError: st.session_state has no attribute messages", 0)
  | some ms =>
    let ms1 := ms ++ [{ role := "user", content := prompt }]
    match s.gemini_chat with
    | some chat =>
      let full_response :=
        match env.sendMessageStream chat prompt with
        | StreamResult.success chunks => chunks.foldl (fun acc c => acc ++ c) ""
        | StreamResult.failure _ e => errResponse e
      (PyResult.ok { s with
          messages := some (ms1 ++ [{ role := "assistant", content := full_response }]) }, 1)
    | none =>
      (PyResult.ok { s with
          messages := some (ms1 ++ [{ role := "assistant", content := initFailureResponse }]) }, 0)

/-- Outcome of one top-to-bottom run of the script body
(healthcare.py lines 70-136): a rerun requested by `st.rerun()`, normal
completion, or an uncaught exception escaping the script. -/
inductive RunOutcome where
  | rerun (s : SessionState)
  | done (s : SessionState)
  | crash (detail : String)
deriving DecidableEq, Repr

/-- One run of the script body, healthcare.py lines 70-136: lazily reset when
no chat exists (lines 74-75), display the transcript (line 99, raising when
`messages` was never set), then handle the optional chat input. -/
def script_run (env : Env) (input : Option String) (s : SessionState) : RunOutcome :=
  let init : PyResult (SessionState × Bool) :=
    match s.gemini_chat with
    | none => reset_chat env s
    | some _ => PyResult.ok (s, false)
  match init with
  | PyResult.exn e => RunOutcome.crash e
  | PyResult.ok (s1, true) => RunOutcome.rerun s1
  | PyResult.ok (s1, false) =>
    match s1.messages with
    | none => RunOutcome.crash "AttributeError: st.session_state has no attribute messages"
    | some _ =>
      match input with
      | none => RunOutcome.done s1
      | some prompt =>
        match (handle_user_message env prompt s1).1 with
        | PyResult.ok s2 => RunOutcome.done s2
        | PyResult.exn e => RunOutcome.crash e

/-- Fresh process state: no session-state key has been assigned yet. -/
def freshState : SessionState :=
  { gemini_client := none, gemini_chat := none, messages := none }

/-- An environment in which every service call succeeds and the stream yields
two chunks. -/
def envStreamOK : Env :=
  { secrets_GEMINI_API_KEY := some "key"
    clientCtor := fun _ => Except.ok 0
    chatsCreate := fun _ => Except.ok 0
    sendMessageStream := fun _ _ =>
      StreamResult.success ["A fever is ", "a rise in body temperature."] }

/-- An environment in which the stream raises after one chunk. -/
def envStreamFails : Env :=
  { envStreamOK with
    sendMessageStream := fun _ _ =>
      StreamResult.failure ["A fever is "] "network error" }

/-- An environment whose configuration lacks the credential key. -/
def envMissingKey : Env :=
  { secrets_GEMINI_API_KEY := none
    clientCtor := fun _ => Except.error "unreached"
    chatsCreate := fun _ => Except.error "unreached"
    sendMessageStream := fun _ _ => StreamResult.success [] }

/-- An environment in which the client constructs but `chats.create` raises. -/
def envCreateFails : Env :=
  { secrets_GEMINI_API_KEY := some "key"
    clientCtor := fun _ => Except.ok 0
    chatsCreate := fun _ => Except.error "boom"
    sendMessageStream := fun _ _ => StreamResult.success [] }

/-- A ready state: client cached, chat active, transcript holding the
welcome message. -/
def stateReady : SessionState :=
  { gemini_client := some 0, gemini_chat := some 0, messages := some [welcomeMessage] }

/-- A state with a transcript but no active chat session. -/
def stateNoChat : SessionState :=
  { gemini_client := none, gemini_chat := none, messages := some [welcomeMessage] }

/-- C1: for every user turn in which the streaming send yields a finite
sequence of chunks without raising, the assistant message appended to the
transcript at the end of the turn has content equal to the exact ordered
concatenation of the chunk texts. -/
theorem C1_stream_concat (env : Env) (s : SessionState) (ms : List Message)
    (chat : Nat) (prompt : String) (chunks : List String)
    (hm : s.messages = some ms) (hc : s.gemini_chat = some chat)
    (hs : env.sendMessageStream chat prompt = StreamResult.success chunks) :
    (handle_user_message env prompt s).1 =
      PyResult.ok { s with messages := some (ms ++
        [{ role := "user", content := prompt },
         { role := "assistant", content := chunks.foldl (fun acc c => acc ++ c) "" }]) } := by
  simp [handle_user_message, hm, hc, hs]

/-- Witness for C1 at a concrete two-chunk stream. -/
theorem C1_stream_concat_witness :
    (handle_user_message envStreamOK "What is a fever?" stateReady).1 =
      PyResult.ok { stateReady with messages := some ([welcomeMessage] ++
        [{ role := "user", content := "What is a fever?" },
         { role := "assistant", content :=
            (["A fever is ", "a rise in body temperature."] : List String).foldl
              (fun acc c => acc ++ c) "" }]) } :=
  C1_stream_concat envStreamOK stateReady [welcomeMessage] 0 "What is a fever?"
    ["A fever is ", "a rise in body temperature."] rfl rfl rfl

/-- C2: when the chunk stream raises after emitting any number of chunks,
the sealed assistant message appended for the turn is the fixed-format error
string (not the partial accumulation), and exactly one assistant entry is
appended for the turn. -/
theorem C2_stream_failure_sealed (env : Env) (s : SessionState) (ms : List Message)
    (chat : Nat) (prompt : String) (chunks : List String) (e : String)
    (hm : s.messages = some ms) (hc : s.gemini_chat = some chat)
    (hs : env.sendMessageStream chat prompt = StreamResult.failure chunks e) :
    (handle_user_message env prompt s).1 =
      PyResult.ok { s with messages := some (ms ++
        [{ role := "user", content := prompt },
         { role := "assistant", content := errResponse e }]) } := by
  simp [handle_user_message, hm, hc, hs]

/-- Witness for C2 at a stream that raises after one chunk. -/
theorem C2_stream_failure_sealed_witness :
    (handle_user_message envStreamFails "What is a fever?" stateReady).1 =
      PyResult.ok { stateReady with messages := some ([welcomeMessage] ++
        [{ role := "user", content := "What is a fever?" },
         { role := "assistant", content := errResponse "network error" }]) } :=
  C2_stream_failure_sealed envStreamFails stateReady [welcomeMessage] 0
    "What is a fever?" ["A fever is "] "network error" rfl rfl rfl

/-- C3: after every successful call to `reset_chat` (one that reaches
`st.rerun()`), a chat session is active and the transcript consists of exactly
the single assistant-authored welcome message, all prior entries discarded. -/
theorem C3_reset_success (env : Env) (s s1 : SessionState)
    (h : reset_chat env s = PyResult.ok (s1, true)) :
    s1.gemini_chat.isSome ∧ s1.messages = some [welcomeMessage] ∧
      welcomeMessage.role = "assistant" := by
  rcases hg : get_gemini_client env s with ⟨cOpt, s2⟩
  cases cOpt with
  | none =>
    have hr : reset_chat env s = PyResult.ok (s2, false) := by
      simp [reset_chat, hg]
    rw [hr] at h
    simp at h
  | some c =>
    cases hcc : env.chatsCreate c with
    | error e =>
      have hr : reset_chat env s = PyResult.exn e := by
        simp [reset_chat, hg, hcc]
      rw [hr] at h
      simp at h
    | ok chat =>
      have hr : reset_chat env s =
          PyResult.ok
            ({ s2 with gemini_chat := some chat, messages := some [welcomeMessage] },
             true) := by
        simp [reset_chat, hg, hcc]
      rw [hr] at h
      simp only [PyResult.ok.injEq, Prod.mk.injEq] at h
      rw [← h.1]
      exact ⟨rfl, rfl, rfl⟩

/-- Witness for C3: a first-ever reset in a fully working environment. -/
theorem C3_reset_success_witness :
    stateReady.gemini_chat.isSome ∧ stateReady.messages = some [welcomeMessage] ∧
      welcomeMessage.role = "assistant" :=
  C3_reset_success envStreamOK freshState stateReady rfl

/-- C4: when client acquisition fails inside `reset_chat`, the call returns
without reaching `st.rerun()` and the whole session state (in particular the
chat session and the transcript) is exactly its pre-call value. -/
theorem C4_reset_client_failure (env : Env) (s : SessionState)
    (h : (get_gemini_client env s).1 = none) :
    reset_chat env s = PyResult.ok (s, false) := by
  have h2 : get_gemini_client env s = (none, s) := by
    cases hc : s.gemini_client with
    | some c =>
      have hv : get_gemini_client env s = (some c, s) := by
        simp [get_gemini_client, hc]
      rw [hv] at h
      simp at h
    | none =>
      cases hk : env.secrets_GEMINI_API_KEY with
      | none => simp [get_gemini_client, hc, hk]
      | some key =>
        cases hcc : env.clientCtor key with
        | ok c =>
          have hv : get_gemini_client env s =
              (some c, { s with gemini_client := some c }) := by
            simp [get_gemini_client, hc, hk, hcc]
          rw [hv] at h
          simp at h
        | error e => simp [get_gemini_client, hc, hk, hcc]
  simp [reset_chat, h2]

/-- Witness for C4: a first-ever reset with the credential key absent. -/
theorem C4_reset_client_failure_witness :
    reset_chat envMissingKey freshState = PyResult.ok (freshState, false) :=
  C4_reset_client_failure envMissingKey freshState rfl

/-- C5 is refuted by the code: two error paths escape the script uncaught.
With the credential absent, the first-ever reset aborts without ever setting
`st.session_state.messages`, so the transcript display loop raises
`AttributeError`; and when `client.chats.create` raises during reset, the
exception propagates out of `reset_chat`, which has no handler around that
call.  Both script runs end in a crash rather than user-visible text. -/
theorem C5_uncaught_crashes :
    script_run envMissingKey none freshState =
      RunOutcome.crash "AttributeError: st.session_state has no attribute messages" ∧
    script_run envCreateFails none freshState = RunOutcome.crash "boom" :=
  ⟨rfl, rfl⟩

/-- C6: for every non-empty input submitted while no chat session is active,
the handler appends exactly one user entry and exactly one assistant entry
holding the initialization-failure message, and performs zero streaming
(network) calls. -/
theorem C6_no_session_guard (env : Env) (prompt : String) (s : SessionState)
    (ms : List Message)
    (hne : prompt ≠ "") (hm : s.messages = some ms) (hc : s.gemini_chat = none) :
    handle_user_message env prompt s =
      (PyResult.ok { s with messages := some (ms ++
        [{ role := "user", content := prompt },
         { role := "assistant", content := initFailureResponse }]) }, 0) := by
  simp [handle_user_message, hm, hc]

/-- Witness for C6 on a concrete no-session state. -/
theorem C6_no_session_guard_witness :
    handle_user_message envStreamOK "What is a fever?" stateNoChat =
      (PyResult.ok { stateNoChat with messages := some ([welcomeMessage] ++
        [{ role := "user", content := "What is a fever?" },
         { role := "assistant", content := initFailureResponse }]) }, 0) :=
  C6_no_session_guard envStreamOK "What is a fever?" stateNoChat [welcomeMessage]
    (by decide) rfl rfl

/-- C7: with the configuration lacking the credential key and no cached
client, `get_gemini_client` fails and stores nothing, and calling it again
from the resulting state fails the same way — a failed attempt is never
cached as a success. -/
theorem C7_missing_credential (env : Env) (s : SessionState)
    (hk : env.secrets_GEMINI_API_KEY = none) (hc : s.gemini_client = none) :
    get_gemini_client env s = (none, s) ∧
    get_gemini_client env ((get_gemini_client env s).2) = (none, s) := by
  have h1 : get_gemini_client env s = (none, s) := by
    simp [get_gemini_client, hk, hc]
  exact ⟨h1, by rw [h1]; exact h1⟩

/-- Witness for C7 on the fresh state with the key absent. -/
theorem C7_missing_credential_witness :
    get_gemini_client envMissingKey freshState = (none, freshState) ∧
    get_gemini_client envMissingKey
        ((get_gemini_client envMissingKey freshState).2) = (none, freshState) :=
  C7_missing_credential envMissingKey freshState rfl rfl

/-- C8: `get_gemini_client` is idempotent for the process lifetime — with a
cached handle it returns that handle and leaves the state unchanged, and on a
first successful construction it stores the new handle so that any later call
(under any environment) returns it unchanged. -/
theorem C8_idempotent (env env2 : Env) (s s2 : SessionState) (key : String)
    (cl c2 : Nat)
    (h0 : s.gemini_client = none)
    (hk : env.secrets_GEMINI_API_KEY = some key)
    (hc : env.clientCtor key = Except.ok cl)
    (h2 : s2.gemini_client = some c2) :
    get_gemini_client env s2 = (some c2, s2) ∧
    get_gemini_client env s = (some cl, { s with gemini_client := some cl }) ∧
    get_gemini_client env2 { s with gemini_client := some cl } =
      (some cl, { s with gemini_client := some cl }) := by
  refine ⟨?_, ?_, ?_⟩ <;> simp [get_gemini_client, h0, hk, hc, h2]

/-- Witness for C8 with a concrete successful construction and cache hit. -/
theorem C8_idempotent_witness :
    get_gemini_client envStreamOK stateReady = (some 0, stateReady) ∧
    get_gemini_client envStreamOK freshState =
      (some 0, { freshState with gemini_client := some 0 }) ∧
    get_gemini_client envStreamOK { freshState with gemini_client := some 0 } =
      (some 0, { freshState with gemini_client := some 0 }) :=
  C8_idempotent envStreamOK envStreamOK freshState stateReady "key" 0 0
    rfl rfl rfl rfl

/-- C9: for every input handled with a transcript present, the handler
appends exactly two entries in every branch — first the user entry holding
the input text, then one assistant entry — with all prior entries preserved
in content and order. -/
theorem C9_turn_appends_two (env : Env) (prompt : String) (s : SessionState)
    (ms : List Message)
    (hm : s.messages = some ms) :
    ∃ a : String, (handle_user_message env prompt s).1 =
      PyResult.ok { s with messages := some (ms ++
        [{ role := "user", content := prompt },
         { role := "assistant", content := a }]) } := by
  cases hc : s.gemini_chat with
  | none => exact ⟨initFailureResponse, by simp [handle_user_message, hm, hc]⟩
  | some chat =>
    cases hs : env.sendMessageStream chat prompt with
    | success chunks =>
      exact ⟨chunks.foldl (fun acc c => acc ++ c) "",
        by simp [handle_user_message, hm, hc, hs]⟩
    | failure ch e =>
      exact ⟨errResponse e, by simp [handle_user_message, hm, hc, hs]⟩

/-- Witness for C9 on a concrete ready state. -/
theorem C9_turn_appends_two_witness :
    ∃ a : String, (handle_user_message envStreamOK "What is a fever?" stateReady).1 =
      PyResult.ok { stateReady with messages := some ([welcomeMessage] ++
        [{ role := "user", content := "What is a fever?" },
         { role := "assistant", content := a }]) } :=
  C9_turn_appends_two envStreamOK "What is a fever?" stateReady [welcomeMessage] rfl

/-- C10: with a client handle already cached, `get_gemini_client` returns it
without consulting the configuration — in particular it still succeeds when
the credential key is absent from the configuration. -/
theorem C10_cache_ignores_config (env : Env) (s : SessionState) (c : Nat)
    (h : s.gemini_client = some c) (hk : env.secrets_GEMINI_API_KEY = none) :
    get_gemini_client env s = (some c, s) := by
  simp [get_gemini_client, h]

/-- Witness for C10: a cached handle with the key since removed. -/
theorem C10_cache_ignores_config_witness :
    get_gemini_client envMissingKey stateReady = (some 0, stateReady) :=
  C10_cache_ignores_config envMissingKey stateReady 0 rfl rfl

end Healthcare
